import Mathlib

/-!
Verification of the `virtaccl` virtual accelerator against its specification.

The definitions below are a shallow embedding of the Python sources:
  * `virtaccl/virtual_accelerator.py` — the `main` control loop (lines 289-310)
    and the quadrupole power-supply construction (lines 172-217);
  * `virtaccl/virtual_devices_SNS.py` — the SNS device classes;
  * `virtaccl/PyORBIT_Model/BTF/btf_child_nodes.py` — BTF lattice child nodes.

Rational numbers stand in for Python floats (the claims under scrutiny are
about exact formulas and control flow, not rounding).
-/

namespace VA

/-- Observable events of one run of `main`'s data-acquisition loop
(`virtual_accelerator.py` lines 289-310).  `checkCancel` is the evaluation of
the `while not_ctrlc()` condition; `exitPrint` is the final print after a
normal (cancelled) exit.  The `time.time()` / `epics_now()` reads are not
observable effects and are not traced. -/
inductive Ev
  | checkCancel
  | getSettings
  | updateReadbacks
  | modelUpdate
  | modelTrack
  | getMeasurements
  | updateMeasurements
  | serverUpdate
  | warnOverrun
  | sleep (t : ℚ)
  | exitPrint
  deriving DecidableEq, Repr

/-- Behaviour of the externals during one loop iteration: whether
`model.update_optics` raises, whether `model.track` raises, and how long the
tick body took (`loop_time_taken`). -/
structure TickBehavior where
  updateRaises : Bool
  trackRaises : Bool
  elapsed : ℚ
  deriving DecidableEq, Repr

/-- The tail of the loop body (`virtual_accelerator.py` lines 303-308):
`sleep_time = update_period - loop_time_taken`; if `sleep_time < 0.0` print an
overrun warning, otherwise sleep for `sleep_time`. -/
def sleepPhase (update_period loop_time_taken : ℚ) : List Ev :=
  if update_period - loop_time_taken < 0 then [.warnOverrun]
  else [.sleep (update_period - loop_time_taken)]

/-- Events of one execution of the loop body (`virtual_accelerator.py` lines
290-308), in source order: `server.get_settings()`, `server.update_readbacks()`,
`model.update_optics(new_params)`, `model.track()`, `model.get_measurements()`,
`server.update_measurements(...)`, `server.update()`, then the sleep/overrun
decision.  The `Bool` is `true` when the body raised (the trace then stops at
the raising call, since nothing in `main` catches). -/
def tickEvents (update_period : ℚ) (b : TickBehavior) : List Ev × Bool :=
  if b.updateRaises then
    ([.getSettings, .updateReadbacks, .modelUpdate], true)
  else if b.trackRaises then
    ([.getSettings, .updateReadbacks, .modelUpdate, .modelTrack], true)
  else
    ([.getSettings, .updateReadbacks, .modelUpdate, .modelTrack, .getMeasurements,
      .updateMeasurements, .serverUpdate] ++ sleepPhase update_period b.elapsed, false)

/-- Trace semantics of `while not_ctrlc(): ...` (`virtual_accelerator.py`
lines 289-310).  `ticks n` gives the externals' behaviour in iteration `n`,
`cancel n` the value of the Ctrl-C flag at the `n`-th boundary check; `fuel`
bounds how many boundary checks are simulated.  An uncaught exception ends the
trace at the raising call; a cancellation ends it with the exit print. -/
def runLoop (update_period : ℚ) (ticks : Nat → TickBehavior) (cancel : Nat → Bool) :
    Nat → Nat → List Ev
  | 0, _ => []
  | fuel + 1, n =>
    if cancel n then [.checkCancel, .exitPrint]
    else
      let t := tickEvents update_period (ticks n)
      if t.2 then .checkCancel :: t.1
      else .checkCancel :: t.1 ++ runLoop update_period ticks cancel fuel (n + 1)

/-- Index of the first occurrence of an event in a trace (length if absent). -/
def evIdx (e : Ev) : List Ev → Nat
  | [] => 0
  | x :: xs => if x = e then 0 else evIdx e xs + 1

/-- The per-tick ordering asserted by claim C1, stated over the body trace of a
non-raising tick: settings snapshot, then Model update and track, then (only
then) measurement distribution followed by readback recomputation followed by
the publisher flush. -/
def C1StatedOrder (update_period : ℚ) (b : TickBehavior) : Prop :=
  let evs := (tickEvents update_period b).1
  evIdx .getSettings evs < evIdx .modelUpdate evs ∧
  evIdx .modelUpdate evs < evIdx .modelTrack evs ∧
  evIdx .modelTrack evs < evIdx .updateMeasurements evs ∧
  evIdx .updateMeasurements evs < evIdx .updateReadbacks evs ∧
  evIdx .updateReadbacks evs < evIdx .serverUpdate evs

end VA

namespace Py

/-- Check whether `pat` occurs at the very start of `s` (`str.startswith`). -/
def headMatch : List Char → List Char → Bool
  | [], _ => true
  | _ :: _, [] => false
  | p :: ps, c :: cs => p = c && headMatch ps cs

/-- Python substring containment `pat in s`. -/
def containsSub : List Char → List Char → Bool
  | [], pat => headMatch pat []
  | c :: rest, pat => headMatch pat (c :: rest) || containsSub rest pat

/-- Python `s.replace(pat, '', 1)` on character lists: remove the first
occurrence of `pat` (the string is returned unchanged when `pat` does not
occur). -/
def removeFirst : List Char → List Char → List Char
  | [], _ => []
  | c :: rest, pat =>
    if headMatch pat (c :: rest) then (c :: rest).drop pat.length
    else c :: removeFirst rest pat

/-- Python `name.replace(pat, '', 1)` on strings. -/
def replaceFirstEmpty (s pat : String) : String := ⟨removeFirst s.data pat.data⟩

end Py

namespace VA

/-- One entry of a device's registration list, in registration order.  A
`setting` records the default (already-transformed) raw value passed to
`register_setting`; a `readback` records the index (`linked`) of the setting
entry whose Parameter it was linked to, the absolute-noise amplitude, and the
`name_override` it is published under. -/
inductive RegEntry
  | setting (pv : String) (default_raw : ℚ)
  | readback (pv : String) (linked : Nat) (noiseAmp : Option ℚ) (name_override : Option String)
  deriving DecidableEq, Repr

/-- Modelled from the spec: `Device.register_setting` (defined in the external
`virtaccl.ca_server` / base-device module) creates a writable Parameter and
returns it so that readbacks of this or other devices can link to it; here the
returned Parameter is identified by its index in the registration list. -/
def registerSetting (regs : List RegEntry) (pv : String) (default_raw : ℚ) :
    List RegEntry × Nat :=
  (regs ++ [.setting pv default_raw], regs.length)

/-- Modelled from the spec: `Device.register_readback` (external base-device
module) creates a read-only Parameter recomputed from the linked setting and
published under `name_override` if given. -/
def registerReadback (regs : List RegEntry) (pv : String) (linked : Nat)
    (noiseAmp : Option ℚ) (name_override : Option String) : List RegEntry :=
  regs ++ [.readback pv linked noiseAmp name_override]

/-- Modelled from the spec: the linear-inverse transform declares
`raw = scale * real + offset`; `LinearTInv(scaler=pol)` has zero offset, so
`raw(x) = pol * x`. -/
def linearTInvRaw (scaler offset real : ℚ) : ℚ := scaler * real + offset

end VA

namespace SNS_Quadrupole

/-- Shallow embedding of the registration statements of
`SNS_Quadrupole.__init__` (`virtual_devices_SNS.py` lines 68-88), executed
after `super().__init__` has left the device's registrations in the state
`start`.  `field_set_pv` / `field_readback_pv` stand for the class-level PV
name constants `Quadrupole.field_set_pv` / `Quadrupole.field_readback_pv` of
the external base class; `initial_dict` is `initial_dict[Quadrupole.field_key]`
when an initial dictionary was given. -/
def initRegs (field_set_pv field_readback_pv : String) (name : String)
    (initial_dict : Option ℚ) (start : List VA.RegEntry) : List VA.RegEntry :=
  let readback_name := Py.replaceFirstEmpty name "PS_"
  let initial_field : ℚ := match initial_dict with | some f => f | none => 0
  let pol : ℚ := if Py.containsSub name.data "PS_QH".data then -1 else 1
  let initial_field2 := VA.linearTInvRaw pol 0 initial_field
  let sr := VA.registerSetting start field_set_pv initial_field2
  VA.registerReadback sr.1 field_readback_pv sr.2 (some (1 / 1000000)) (some readback_name)

end SNS_Quadrupole

namespace SNS_Corrector

/-- Shallow embedding of the registration statements of
`SNS_Corrector.__init__` (`virtual_devices_SNS.py` lines 158-180), executed
after `super().__init__`.  The PV name constants and `Corrector.field_limits`
come from the external base class and are passed in abstractly. -/
def initRegs (field_set_pv field_readback_pv field_high_limit_pv field_low_limit_pv : String)
    (field_limits : ℚ × ℚ) (name : String) (initial_dict : Option ℚ)
    (start : List VA.RegEntry) : List VA.RegEntry :=
  let readback_name := Py.replaceFirstEmpty name "PS_"
  let initial_field : ℚ := match initial_dict with | some f => f | none => 0
  let pol : ℚ := if Py.containsSub name.data "SCL".data then -1 else 1
  let initial_field2 := VA.linearTInvRaw pol 0 initial_field
  let sr := VA.registerSetting start field_set_pv initial_field2
  let r1 := VA.registerReadback sr.1 field_readback_pv sr.2 (some (1 / 1000000))
    (some readback_name)
  let r2 := (VA.registerSetting r1 field_high_limit_pv field_limits.2).1
  (VA.registerSetting r2 field_low_limit_pv field_limits.1).1

end SNS_Corrector

/-- First-match lookup in a Python dict modelled as an association list in
insertion order (Python dict keys are unique, which theorems state as a
`Nodup` hypothesis on the key list). -/
def dictGet {β : Type} (k : String) : List (String × β) → Option β
  | [] => none
  | kv :: rest => if kv.1 = k then some kv.2 else dictGet k rest

namespace SNS_Dummy_BCM

/-- `c_light = 2.99792458e+8` (`virtual_devices_SNS.py` line 190). -/
def c_light : ℚ := 299792458

/-- `ring_length = 247.967` (`virtual_devices_SNS.py` line 191). -/
def ring_length : ℚ := 247967 / 1000

/-- `beta_key = 'beta'` (`virtual_devices_SNS.py` line 188). -/
def beta_key : String := "beta"

/-- Shallow embedding of `SNS_Dummy_BCM.update_measurements`
(`virtual_devices_SNS.py` lines 205-213): iterate over `new_params`; for the
entry matching the device's `model_name`, iterate over its parameter dict; on
the key `'beta'` store `beta * c_light / ring_length` into the `FFT_peak2`
measurement.  The stored raw value of that measurement is threaded as `freq`. -/
def update_measurements (model_name : String)
    (new_params : List (String × List (String × ℚ))) (freq : ℚ) : ℚ :=
  new_params.foldl (fun acc mp =>
    if mp.1 = model_name then
      mp.2.foldl (fun acc2 kv =>
        if kv.1 = beta_key then kv.2 * c_light / ring_length else acc2) acc
    else acc) freq

end SNS_Dummy_BCM

namespace SNS_Dummy_ICS

/-- The PV state of an `SNS_Dummy_ICS` device: the stored raw values of its two
measurements (`Gate_BeamOn:RR`, `Util:event46`) and of its one setting
(`Gate_BeamOn:SSTrigger`), per `SNS_Dummy_ICS.__init__`
(`virtual_devices_SNS.py` lines 222-235). -/
structure State where
  beam_on : ℚ
  event : ℚ
  trigger : ℚ
  deriving DecidableEq, Repr

/-- Shallow embedding of `SNS_Dummy_ICS.update_measurements`
(`virtual_devices_SNS.py` lines 237-239): unconditionally store `1` into the
beam-on measurement and `0` into the event measurement, ignoring the argument. -/
def update_measurements (new_measurements : List (String × List (String × ℚ)))
    (s : State) : State :=
  { s with beam_on := 1, event := 0 }

/-- Shallow embedding of `SNS_Dummy_ICS.get_settings`
(`virtual_devices_SNS.py` lines 241-242): return the empty dictionary. -/
def get_settings (s : State) : List (String × List (String × ℚ)) := []

end SNS_Dummy_ICS


namespace Startup

/-- Configuration and model data of one quadrupole connected to a power supply,
as read in the quadrupole loop of `main` (`virtual_accelerator.py` lines
177-198): its PyORBIT element name, its optional power-shunt name (`'none'` in
the source is modelled as `none`), the raw `dB/dr` model parameter (before
`abs`), and the configured polarity. -/
structure QuadConf where
  or_name : String
  shunt : Option String
  dBdr : ℚ
  polarity : ℤ
  deriving DecidableEq, Repr

/-- The per-quad record stored into `ps_quads[ps_name]["quads"]`
(`virtual_accelerator.py` lines 188-196): the stored `'dB/dr'` entry is
`initial_field_str = abs(...['dB/dr'])`. -/
structure QuadRecord where
  or_name : String
  shunt : Option String
  field : ℚ
  polarity : ℤ
  deriving DecidableEq, Repr

/-- The running-minimum update of `ps_quads[ps_name]["min_field"]`
(`virtual_accelerator.py` lines 191-192 and 197-198): the `math.inf` initial
value is modelled as `none`, and the stored minimum is replaced only when
strictly greater than the new field strength. -/
def addMin (acc : Option ℚ) (f : ℚ) : Option ℚ :=
  match acc with
  | none => some f
  | some m => if m > f then some f else some m

/-- One iteration of the quadrupole loop for a quad connected to this power
supply (`virtual_accelerator.py` lines 181-198): append the quad record (with
`field = abs(dB/dr)`) and update the running minimum. -/
def addQuad (acc : List (String × QuadRecord) × Option ℚ) (nq : String × QuadConf) :
    List (String × QuadRecord) × Option ℚ :=
  let f := |nq.2.dBdr|
  (acc.1 ++ [(nq.1, ⟨nq.2.or_name, nq.2.shunt, f, nq.2.polarity⟩)], addMin acc.2 f)

/-- The `ps_quads[ps_name]` accumulator after the quadrupole loop of `main`,
for the quads connected to one power supply, in configuration order. -/
def collectQuads (quads : List (String × QuadConf)) :
    List (String × QuadRecord) × Option ℚ :=
  quads.foldl addQuad ([], none)

/-- A device constructed and added to the server by the power-supply loop of
`main` (`virtual_accelerator.py` lines 200-217). -/
inductive StartupDevice
  | powerSupply (name : String) (field : ℚ)
  | powerShunt (name : String) (field : ℚ)
  | quadrupole (name : String) (or_name : String) (polarity : ℤ) (hasShunt : Bool)
  deriving DecidableEq, Repr

/-- Shallow embedding of the power-supply construction loop of `main`
(`virtual_accelerator.py` lines 200-217) for one power supply: if any quads are
connected, create the `Quadrupole_Power_Supply` with `ps_field = min_field`,
then for each connected quad either a plain `Quadrupole`, or a
`Quadrupole_Power_Shunt` with `shunt_field = field - ps_field` followed by the
`Quadrupole`, in insertion order. -/
def buildPSDevices (ps_name : String) (quads : List (String × QuadConf)) :
    List StartupDevice :=
  match collectQuads quads with
  | ([], _) => []
  | (_ :: _, none) => []
  | (q :: qs, some ps_field) =>
      StartupDevice.powerSupply ps_name ps_field ::
        ((q :: qs).map (fun nq =>
          match nq.2.shunt with
          | none => [StartupDevice.quadrupole nq.1 nq.2.or_name nq.2.polarity false]
          | some shunt_name =>
              [StartupDevice.powerShunt shunt_name (nq.2.field - ps_field),
               StartupDevice.quadrupole nq.1 nq.2.or_name nq.2.polarity true])).flatten

/-- The record `addQuad` stores for one quad (used to state its effect). -/
def mkRecord (nq : String × QuadConf) : String × QuadRecord :=
  (nq.1, ⟨nq.2.or_name, nq.2.shunt, |nq.2.dBdr|, nq.2.polarity⟩)

end Startup

/-- Python runtime/compile-time errors needed by the embedded code. -/
inductive PyErr
  | keyError (key : String)
  | zeroDivision
  | nameError (n : String)
  | syntaxError
  deriving DecidableEq, Repr

namespace BTF

/-- The portion of the PyORBIT `paramsDict` read by the BTF child nodes: the
optional `"bunch"` entry (represented by its global particle count, the only
use the nodes make of it), and the optional `"beam_current"` /
`"initial_particle_number"` entries (absent keys raise `KeyError`). -/
structure ParamsDict where
  bunchSize : Option ℕ
  beam_current : Option ℚ
  initial_particle_number : Option ℚ
  deriving DecidableEq, Repr

/-- Shallow embedding of `BTF_FCclass.trackActions`
(`btf_child_nodes.py` lines 18-30), as its effect on `self.parameters['current']`
(threaded as `current`): return early when `"bunch"` is absent; with a
non-empty bunch set `current = part_num / initial_number * initial_beam_current`
(reading `"beam_current"` then `"initial_particle_number"`, with Python's
`KeyError`/`ZeroDivisionError` semantics); with an empty bunch set `0.0`. -/
def BTF_FCclass.trackActions (paramsDict : ParamsDict) (current : ℚ) : Except PyErr ℚ :=
  match paramsDict.bunchSize with
  | none => .ok current
  | some part_num =>
    if part_num > 0 then
      match paramsDict.beam_current with
      | none => .error (.keyError "beam_current")
      | some initial_beam_current =>
        match paramsDict.initial_particle_number with
        | none => .error (.keyError "initial_particle_number")
        | some initial_number =>
          if initial_number = 0 then .error .zeroDivision
          else .ok ((part_num : ℚ) / initial_number * initial_beam_current)
    else .ok 0

/-- Shallow embedding of `BTF_BCMclass.trackActions`
(`btf_child_nodes.py` lines 107-119), transliterated from its own source text
(which is line-for-line the same computation as the Faraday-cup class). -/
def BTF_BCMclass.trackActions (paramsDict : ParamsDict) (current : ℚ) : Except PyErr ℚ :=
  match paramsDict.bunchSize with
  | none => .ok current
  | some part_num =>
    if part_num > 0 then
      match paramsDict.beam_current with
      | none => .error (.keyError "beam_current")
      | some initial_beam_current =>
        match paramsDict.initial_particle_number with
        | none => .error (.keyError "initial_particle_number")
        | some initial_number =>
          if initial_number = 0 then .error .zeroDivision
          else .ok ((part_num : ℚ) / initial_number * initial_beam_current)
    else .ok 0

/-- Tokens of a Python dict display, as far as the `BTF_Slitclass` literal
needs them. -/
inductive PyTok
  | lbrace
  | rbrace
  | comma
  | colon
  | strLit (s : String)
  | numLit (q : ℚ)
  | ident (n : String)
  deriving DecidableEq, Repr

/-- Values of the tiny Python fragment evaluated here. -/
inductive PyVal
  | num (q : ℚ)
  | str (s : String)
  | pynone
  | obj
  deriving DecidableEq, Repr

/-- The token sequence of the `self.parameters = { ... }` dict literal of
`BTF_Slitclass.__init__` (`btf_child_nodes.py` lines 238-239), transliterated
faithfully: there is no comma between the entry `'interaction_start':
interaction` and the key `'edge_to_slit'`. -/
def slitParamsTokens : List PyTok :=
  [.lbrace, .strLit "speed", .colon, .numLit 0, .comma,
   .strLit "position", .colon, .numLit (-(7 / 100)), .comma,
   .strLit "axis", .colon, .ident "slit_axis", .comma,
   .strLit "axis_polarity", .colon, .ident "screen_polarity", .comma,
   .strLit "interaction_start", .colon, .ident "interaction",
   .strLit "edge_to_slit", .colon, .ident "edge_to_slit",
   .rbrace]

/-- An atom (key or value) of a dict display. -/
def isAtom : PyTok → Bool
  | .strLit _ => true
  | .numLit _ => true
  | .ident _ => true
  | _ => false

/-- Well-formedness of the token stream following the opening brace of a dict
display: entries `key : value` separated by commas, closed by `rbrace`. -/
def dictRestWF : List PyTok → Bool
  | [k, .colon, v, .rbrace] => isAtom k && isAtom v
  | k :: .colon :: v :: .comma :: rest => isAtom k && isAtom v && dictRestWF rest
  | _ => false

/-- Well-formedness of a dict display token stream. -/
def dictLiteralWF : List PyTok → Bool
  | [.lbrace, .rbrace] => true
  | .lbrace :: rest => dictRestWF rest
  | _ => false

/-- The identifiers referenced by a token stream. -/
def identTokens (ts : List PyTok) : List String :=
  ts.filterMap (fun t => match t with | .ident n => some n | _ => none)

/-- The local scope of `BTF_Slitclass.__init__` (`btf_child_nodes.py` line
237): its formal parameters. -/
def slitInitLocalNames : List String := ["self", "child_name", "slit_axis"]

/-- The module-level scope of `btf_child_nodes.py`: its imports (lines 1-5)
and the classes it defines. -/
def btfModuleNames : List String :=
  ["math", "Dict", "np", "Bunch",
   "BTF_FCclass", "BTF_FC_Objectclass", "BTF_BCMclass", "BTF_Screenclass", "BTF_Slitclass"]

/-- Whether a name resolves in the scope of `BTF_Slitclass.__init__`. -/
def slitResolvable (n : String) : Bool :=
  slitInitLocalNames.contains n || btfModuleNames.contains n

/-- Evaluation environment of `BTF_Slitclass.__init__`: local bindings first;
module-level names are bound to opaque objects. -/
def slitInitEnv (child_name : String) (slit_axis : PyVal) : List (String × PyVal) :=
  [("self", .obj), ("child_name", .str child_name), ("slit_axis", slit_axis)] ++
    btfModuleNames.map (fun n => (n, PyVal.obj))

/-- Evaluate an atom token: literals to their values, identifiers by lookup in
the environment (an unbound name raises `NameError`). -/
def evalAtom (env : List (String × PyVal)) : PyTok → Except PyErr PyVal
  | .numLit q => .ok (.num q)
  | .strLit s => .ok (.str s)
  | .ident n =>
    match dictGet n env with
    | some v => .ok v
    | none => .error (.nameError n)
  | _ => .error .syntaxError

/-- Evaluate the entries of a dict display after the opening brace. -/
def evalDictRest (env : List (String × PyVal)) : List PyTok → Except PyErr (List (PyVal × PyVal))
  | [k, .colon, v, .rbrace] => do
    pure [((← evalAtom env k), (← evalAtom env v))]
  | k :: .colon :: v :: .comma :: rest => do
    let kv := ((← evalAtom env k), (← evalAtom env v))
    pure (kv :: (← evalDictRest env rest))
  | _ => .error .syntaxError

/-- Evaluate a dict display token stream. -/
def evalDictLit (env : List (String × PyVal)) : List PyTok → Except PyErr (List (PyVal × PyVal))
  | [.lbrace, .rbrace] => .ok []
  | .lbrace :: rest => evalDictRest env rest
  | _ => .error .syntaxError

/-- The object state `BTF_Slitclass.__init__` would build if it succeeded
(`btf_child_nodes.py` lines 236-242). -/
structure SlitState where
  parameters : List (PyVal × PyVal)
  child_name : String
  node_type : String
  si_e_charge : ℚ
  deriving DecidableEq, Repr

/-- Shallow embedding of constructing a `BTF_Slitclass`
(`btf_child_nodes.py` lines 236-242) under CPython semantics: the module is
compiled before any execution, so an ill-formed dict display in the body is a
`SyntaxError` raised before the arguments matter; otherwise the literal's
atoms are evaluated against the initializer's scope, and the remaining
attribute assignments always succeed. -/
def BTF_Slitclass.init (child_name : String) (slit_axis : PyVal) : Except PyErr SlitState :=
  if dictLiteralWF slitParamsTokens then
    match evalDictLit (slitInitEnv child_name slit_axis) slitParamsTokens with
    | .error e => .error e
    | .ok params => .ok ⟨params, child_name, "BTF_Slit", 16021773 / 10000000000000000000000000⟩
  else .error .syntaxError

end BTF

open VA

theorem sleepPhase_shape (a b : ℚ) :
    sleepPhase a b = [Ev.warnOverrun] ∨ sleepPhase a b = [Ev.sleep (a - b)] := by
  unfold sleepPhase
  split
  · exact Or.inl rfl
  · exact Or.inr rfl

/-- Claim C1, counterexample: the per-tick ordering stated by the claim
(settings snapshot, Model update, Model track, and only then measurement
distribution followed by readback recomputation followed by the publisher
flush) does not hold of the loop body; in particular readback recomputation
does not happen after the Model tracking step. -/
theorem C1_stated_order_refuted : ¬ C1StatedOrder 1 ⟨false, false, 0⟩ := by
  unfold C1StatedOrder
  decide

/-- Claim C1, amended: in every non-raising tick the loop body runs
`get_settings`, then `update_readbacks` (readback recomputation happens in the
Collecting phase, before the Model step, not after it), then `Model.update`
followed by `Model.track`, and only then distributes the Model output via
`get_measurements`, `update_measurements` and the Publisher flush
(`server.update`). -/
theorem C1_tick_phase_order (p : ℚ) (b : TickBehavior)
    (hu : b.updateRaises = false) (ht : b.trackRaises = false) :
    let evs := (tickEvents p b).1
    evIdx .getSettings evs < evIdx .updateReadbacks evs ∧
    evIdx .updateReadbacks evs < evIdx .modelUpdate evs ∧
    evIdx .modelUpdate evs < evIdx .modelTrack evs ∧
    evIdx .modelTrack evs < evIdx .getMeasurements evs ∧
    evIdx .getMeasurements evs < evIdx .updateMeasurements evs ∧
    evIdx .updateMeasurements evs < evIdx .serverUpdate evs := by
  simp [tickEvents, hu, ht, evIdx]

/-- Witness for `C1_tick_phase_order` at a concrete tick. -/
theorem C1_tick_phase_order_witness :
    let evs := (tickEvents 1 ⟨false, false, 0⟩).1
    evIdx .getSettings evs < evIdx .updateReadbacks evs ∧
    evIdx .updateReadbacks evs < evIdx .modelUpdate evs ∧
    evIdx .modelUpdate evs < evIdx .modelTrack evs ∧
    evIdx .modelTrack evs < evIdx .getMeasurements evs ∧
    evIdx .getMeasurements evs < evIdx .updateMeasurements evs ∧
    evIdx .updateMeasurements evs < evIdx .serverUpdate evs :=
  C1_tick_phase_order 1 ⟨false, false, 0⟩ rfl rfl

/-- Claim C2, counterexample: with a Model that raises in `update_optics` on
the very first tick and an operator that never cancels, the loop trace ends at
the raising call even though fuel for two further boundary checks remains — the
error is not caught and logged, the loop does not continue to a next tick
(exactly one `get_settings` ever runs), and there is no orderly exit. -/
theorem C2_continue_after_model_error_refuted :
    runLoop 1 (fun _ => ⟨true, false, 0⟩) (fun _ => false) 3 0 =
      [.checkCancel, .getSettings, .updateReadbacks, .modelUpdate] ∧
    (runLoop 1 (fun _ => ⟨true, false, 0⟩) (fun _ => false) 3 0).count Ev.getSettings = 1 ∧
    Ev.exitPrint ∉ runLoop 1 (fun _ => ⟨true, false, 0⟩) (fun _ => false) 3 0 := by
  decide

/-- Claim C2, amended: `main` wraps no handler around the tick body, so an
error raised by `Model.update` (`update_optics`) or `Model.track` propagates
and terminates the loop at the raising call; the failing tick never reaches
`update_measurements` or the publisher flush, so the previously published
measurement values are what remains — but no further tick runs. -/
theorem C2_model_error_terminates_loop (p : ℚ) (ticks : Nat → TickBehavior)
    (cancel : Nat → Bool) (fuel n : Nat) (hc : cancel n = false)
    (hraise : (ticks n).updateRaises = true ∨ (ticks n).trackRaises = true) :
    runLoop p ticks cancel (fuel + 1) n =
      Ev.checkCancel :: Ev.getSettings :: Ev.updateReadbacks :: Ev.modelUpdate ::
        (if (ticks n).updateRaises then [] else [Ev.modelTrack]) ∧
    Ev.updateMeasurements ∉ runLoop p ticks cancel (fuel + 1) n ∧
    Ev.serverUpdate ∉ runLoop p ticks cancel (fuel + 1) n ∧
    Ev.exitPrint ∉ runLoop p ticks cancel (fuel + 1) n ∧
    (runLoop p ticks cancel (fuel + 1) n).count Ev.getSettings = 1 := by
  by_cases hu : (ticks n).updateRaises = true
  · simp [runLoop, tickEvents, hc, hu]
  · rcases hraise with h | h
    · exact absurd h hu
    · simp at hu
      simp [runLoop, tickEvents, hc, hu, h]

/-- Witness for `C2_model_error_terminates_loop` at a concrete run. -/
theorem C2_model_error_terminates_loop_witness :
    runLoop 1 (fun _ => ⟨true, false, 0⟩) (fun _ => false) 1 0 =
      [Ev.checkCancel, Ev.getSettings, Ev.updateReadbacks, Ev.modelUpdate] ∧
    Ev.updateMeasurements ∉ runLoop 1 (fun _ => ⟨true, false, 0⟩) (fun _ => false) 1 0 ∧
    Ev.serverUpdate ∉ runLoop 1 (fun _ => ⟨true, false, 0⟩) (fun _ => false) 1 0 ∧
    Ev.exitPrint ∉ runLoop 1 (fun _ => ⟨true, false, 0⟩) (fun _ => false) 1 0 ∧
    (runLoop 1 (fun _ => ⟨true, false, 0⟩) (fun _ => false) 1 0).count Ev.getSettings = 1 :=
  C2_model_error_terminates_loop 1 (fun _ => ⟨true, false, 0⟩) (fun _ => false) 0 0 rfl
    (Or.inl rfl)

/-- Claim C3: letting `elapsed` be the time the tick body took, the loop skips
the sleep and emits exactly one overrun warning when `elapsed` exceeds the
period, sleeps `period - elapsed` with no warning otherwise, and in either case
the following iteration begins with its full Collecting phase
(`get_settings` and `update_readbacks`) — no tick is dropped or merged. -/
theorem C3_overrun_sleep_decision (p : ℚ) (ticks : Nat → TickBehavior)
    (cancel : Nat → Bool) (fuel n : Nat)
    (hu : (ticks n).updateRaises = false) (ht : (ticks n).trackRaises = false)
    (hc : cancel n = false) (hc2 : cancel (n + 1) = false) :
    (p < (ticks n).elapsed → sleepPhase p (ticks n).elapsed = [Ev.warnOverrun]) ∧
    ((ticks n).elapsed ≤ p →
        sleepPhase p (ticks n).elapsed = [Ev.sleep (p - (ticks n).elapsed)]) ∧
    ((tickEvents p (ticks n)).1.count Ev.warnOverrun
        = if p < (ticks n).elapsed then 1 else 0) ∧
    (runLoop p ticks cancel (fuel + 2) n
        = Ev.checkCancel :: (tickEvents p (ticks n)).1
            ++ runLoop p ticks cancel (fuel + 1) (n + 1)) ∧
    (∃ rest, runLoop p ticks cancel (fuel + 1) (n + 1)
        = Ev.checkCancel :: Ev.getSettings :: Ev.updateReadbacks :: rest) := by
  refine ⟨fun h => ?_, fun h => ?_, ?_, ?_, ?_⟩
  · simp [sleepPhase, sub_neg.mpr h]
  · rw [sleepPhase, if_neg (not_lt.mpr (sub_nonneg.mpr h))]
  · by_cases h : p < (ticks n).elapsed
    · simp [tickEvents, hu, ht, sleepPhase, sub_neg.mpr h, h]
    · push_neg at h
      simp [tickEvents, hu, ht, sleepPhase, not_lt.mpr (sub_nonneg.mpr h), not_lt.mpr h]
  · simp [runLoop, tickEvents, hc, hu, ht]
  · by_cases hu2 : (ticks (n + 1)).updateRaises = true
    · exact ⟨[Ev.modelUpdate], by simp [runLoop, tickEvents, hc2, hu2]⟩
    · simp at hu2
      by_cases ht2 : (ticks (n + 1)).trackRaises = true
      · exact ⟨[Ev.modelUpdate, Ev.modelTrack], by simp [runLoop, tickEvents, hc2, hu2, ht2]⟩
      · simp at ht2
        refine ⟨Ev.modelUpdate :: Ev.modelTrack :: Ev.getMeasurements :: Ev.updateMeasurements ::
          Ev.serverUpdate ::
          (sleepPhase p (ticks (n + 1)).elapsed ++ runLoop p ticks cancel fuel (n + 1 + 1)), ?_⟩
        simp [runLoop, tickEvents, hc2, hu2, ht2]

/-- Witness for `C3_overrun_sleep_decision` at a concrete overrunning run. -/
theorem C3_overrun_sleep_decision_witness :
    (1 < (2 : ℚ) → sleepPhase 1 2 = [Ev.warnOverrun]) ∧
    ((2 : ℚ) ≤ 1 → sleepPhase 1 2 = [Ev.sleep (1 - 2)]) ∧
    ((tickEvents 1 ⟨false, false, 2⟩).1.count Ev.warnOverrun
        = if (1 : ℚ) < 2 then 1 else 0) ∧
    (runLoop 1 (fun _ => ⟨false, false, 2⟩) (fun _ => false) 2 0
        = Ev.checkCancel :: (tickEvents 1 ⟨false, false, 2⟩).1
            ++ runLoop 1 (fun _ => ⟨false, false, 2⟩) (fun _ => false) 1 1) ∧
    (∃ rest, runLoop 1 (fun _ => ⟨false, false, 2⟩) (fun _ => false) 1 1
        = Ev.checkCancel :: Ev.getSettings :: Ev.updateReadbacks :: rest) :=
  C3_overrun_sleep_decision 1 (fun _ => ⟨false, false, 2⟩) (fun _ => false) 0 0 rfl rfl rfl rfl

/-- Claim C4: the operator cancellation flag (`not_ctrlc()`) is evaluated
exactly once per cycle, at the boundary before the tick body (the body's event
list contains no check), and a tick that starts runs all of its phases —
Collecting, Tracking, Publishing and the sleep decision — to completion; at a
boundary where the flag is set the loop exits without starting a tick. -/
theorem C4_cancel_checked_at_boundary (p : ℚ) (ticks : Nat → TickBehavior)
    (cancel : Nat → Bool) (fuel n : Nat) (hc : cancel n = false)
    (hu : (ticks n).updateRaises = false) (ht : (ticks n).trackRaises = false) :
    (runLoop p ticks cancel (fuel + 1) n
        = Ev.checkCancel :: (tickEvents p (ticks n)).1
            ++ runLoop p ticks cancel fuel (n + 1)) ∧
    Ev.checkCancel ∉ (tickEvents p (ticks n)).1 ∧
    ((tickEvents p (ticks n)).1
        = [Ev.getSettings, Ev.updateReadbacks, Ev.modelUpdate, Ev.modelTrack,
           Ev.getMeasurements, Ev.updateMeasurements, Ev.serverUpdate]
            ++ sleepPhase p (ticks n).elapsed) ∧
    (∀ m fuel2, cancel m = true →
        runLoop p ticks cancel (fuel2 + 1) m = [Ev.checkCancel, Ev.exitPrint]) := by
  refine ⟨by simp [runLoop, tickEvents, hc, hu, ht], ?_, by simp [tickEvents, hu, ht], ?_⟩
  · rcases sleepPhase_shape p (ticks n).elapsed with h | h <;>
      simp [tickEvents, hu, ht, h]
  · intro m fuel2 hm
    simp [runLoop, hm]

/-- Witness for `C4_cancel_checked_at_boundary` at a concrete run. -/
theorem C4_cancel_checked_at_boundary_witness :
    (runLoop 1 (fun _ => ⟨false, false, 0⟩) (fun _ => false) 1 0
        = Ev.checkCancel :: (tickEvents 1 ⟨false, false, 0⟩).1
            ++ runLoop 1 (fun _ => ⟨false, false, 0⟩) (fun _ => false) 0 1) ∧
    Ev.checkCancel ∉ (tickEvents 1 ⟨false, false, 0⟩).1 ∧
    ((tickEvents 1 ⟨false, false, 0⟩).1
        = [Ev.getSettings, Ev.updateReadbacks, Ev.modelUpdate, Ev.modelTrack,
           Ev.getMeasurements, Ev.updateMeasurements, Ev.serverUpdate]
            ++ sleepPhase 1 0) ∧
    (∀ m fuel2, (fun _ : Nat => false) m = true →
        runLoop 1 (fun _ => ⟨false, false, 0⟩) (fun _ => false) (fuel2 + 1) m
          = [Ev.checkCancel, Ev.exitPrint]) :=
  C4_cancel_checked_at_boundary 1 (fun _ => ⟨false, false, 0⟩) (fun _ => false) 0 0 rfl rfl rfl

theorem dict_foldl_absent {γ : Type} (k : String) (g : ℚ → γ → ℚ)
    (l : List (String × γ)) (acc : ℚ) :
    (∀ kv ∈ l, kv.1 ≠ k) →
    l.foldl (fun a kv => if kv.1 = k then g a kv.2 else a) acc = acc := by
  induction l with
  | nil => intro _; rfl
  | cons kv rest ih =>
    intro h
    rw [List.foldl_cons, if_neg (h kv (List.mem_cons_self _ _))]
    exact ih (fun kv' hm => h kv' (List.mem_cons_of_mem _ hm))

theorem dict_foldl_found {γ : Type} (k : String) (g : ℚ → γ → ℚ)
    (l : List (String × γ)) (acc : ℚ) (v : γ) :
    (l.map Prod.fst).Nodup → dictGet k l = some v →
    l.foldl (fun a kv => if kv.1 = k then g a kv.2 else a) acc = g acc v := by
  induction l with
  | nil => intro _ hget; simp [dictGet] at hget
  | cons kv rest ih =>
    intro hnd hget
    rw [List.map_cons, List.nodup_cons] at hnd
    by_cases h1 : kv.1 = k
    · have hv : kv.2 = v := by
        rw [dictGet, if_pos h1] at hget
        exact Option.some.inj hget
      rw [List.foldl_cons, if_pos h1, hv]
      refine dict_foldl_absent k g rest (g acc v) ?_
      intro kv' hm hk
      exact hnd.1 (by rw [h1, ← hk]; exact List.mem_map_of_mem Prod.fst hm)
    · rw [List.foldl_cons, if_neg h1]
      rw [dictGet, if_neg h1] at hget
      exact ih hnd.2 hget

theorem bcm_no_beta_unchanged (model_name : String) :
    ∀ (new_params : List (String × List (String × ℚ))) (freq : ℚ),
    (∀ mp ∈ new_params, mp.1 = model_name →
        ∀ kv ∈ mp.2, kv.1 ≠ SNS_Dummy_BCM.beta_key) →
    SNS_Dummy_BCM.update_measurements model_name new_params freq = freq := by
  intro new_params
  induction new_params with
  | nil => intro freq _; rfl
  | cons mp rest ih =>
    intro freq h
    unfold SNS_Dummy_BCM.update_measurements at ih ⊢
    rw [List.foldl_cons]
    by_cases h1 : mp.1 = model_name
    · rw [if_pos h1,
        dict_foldl_absent SNS_Dummy_BCM.beta_key
          (fun _ v => v * SNS_Dummy_BCM.c_light / SNS_Dummy_BCM.ring_length) mp.2 freq
          (h mp (List.mem_cons_self _ _) h1)]
      exact ih freq (fun mp' hm => h mp' (List.mem_cons_of_mem _ hm))
    · rw [if_neg h1]
      exact ih freq (fun mp' hm => h mp' (List.mem_cons_of_mem _ hm))

/-- Claim C5: when the model output passed to `SNS_Dummy_BCM.update_measurements`
contains an entry for the device's `model_name` whose parameter dict has the
key `'beta'` with value `beta`, the stored frequency measurement becomes
`beta * 2.99792458e8 / 247.967`; when it contains no such entry the
frequency measurement is unchanged.  (The `Nodup` hypotheses state that the
association lists model Python dicts, whose keys are unique.) -/
theorem C5_bcm_beta_frequency (model_name : String)
    (new_params : List (String × List (String × ℚ))) (freq : ℚ)
    (hnd : (new_params.map Prod.fst).Nodup) :
    (∀ pd, dictGet model_name new_params = some pd →
      (pd.map Prod.fst).Nodup →
      ∀ beta, dictGet SNS_Dummy_BCM.beta_key pd = some beta →
        SNS_Dummy_BCM.update_measurements model_name new_params freq
          = beta * (299792458 : ℚ) / (247967 / 1000)) ∧
    ((∀ mp ∈ new_params, mp.1 = model_name →
        ∀ kv ∈ mp.2, kv.1 ≠ SNS_Dummy_BCM.beta_key) →
      SNS_Dummy_BCM.update_measurements model_name new_params freq = freq) := by
  constructor
  · intro pd hpd hndpd beta hbeta
    unfold SNS_Dummy_BCM.update_measurements
    rw [dict_foldl_found model_name
      (fun a pd2 => pd2.foldl (fun acc2 kv =>
        if kv.1 = SNS_Dummy_BCM.beta_key then
          kv.2 * SNS_Dummy_BCM.c_light / SNS_Dummy_BCM.ring_length
        else acc2) a)
      new_params freq pd hnd hpd]
    rw [dict_foldl_found SNS_Dummy_BCM.beta_key
      (fun _ v => v * SNS_Dummy_BCM.c_light / SNS_Dummy_BCM.ring_length) pd freq beta hndpd
      hbeta]
    norm_num [SNS_Dummy_BCM.c_light, SNS_Dummy_BCM.ring_length]
  · exact bcm_no_beta_unchanged model_name new_params freq

/-- Witness for `C5_bcm_beta_frequency` at concrete model outputs (the dummy
BCM is constructed with `model_name = 'HEBT_Diag:BPM11'` in `main`). -/
theorem C5_bcm_beta_frequency_witness :
    SNS_Dummy_BCM.update_measurements "HEBT_Diag:BPM11"
      [("HEBT_Diag:BPM11", [("beta", 1)])] 0
      = (1 : ℚ) * (299792458 : ℚ) / (247967 / 1000) ∧
    SNS_Dummy_BCM.update_measurements "HEBT_Diag:BPM11"
      [("HEBT_Diag:BPM12", [("beta", 1)])] 7 = 7 :=
  ⟨(C5_bcm_beta_frequency "HEBT_Diag:BPM11" [("HEBT_Diag:BPM11", [("beta", 1)])] 0
      (by decide)).1 [("beta", 1)] (by decide) (by decide) 1 (by decide),
   (C5_bcm_beta_frequency "HEBT_Diag:BPM11" [("HEBT_Diag:BPM12", [("beta", 1)])] 7
      (by decide)).2 (by decide)⟩

theorem headMatch_append (pat rest : List Char) : Py.headMatch pat (pat ++ rest) = true := by
  induction pat with
  | nil => rfl
  | cons p ps ih => simp [Py.headMatch, ih]

theorem removeFirst_first_occ (pat b : List Char) (hne : pat ≠ []) :
    ∀ a : List Char, (∀ i < a.length, Py.headMatch pat ((a ++ (pat ++ b)).drop i) = false) →
    Py.removeFirst (a ++ (pat ++ b)) pat = a ++ b := by
  intro a
  induction a with
  | nil =>
    intro _
    cases pat with
    | nil => exact absurd rfl hne
    | cons p ps =>
      show Py.removeFirst (p :: (ps ++ b)) (p :: ps) = b
      have hm : Py.headMatch (p :: ps) (p :: (ps ++ b)) = true := by
        simpa using headMatch_append (p :: ps) b
      rw [Py.removeFirst, if_pos hm]
      have h2 : (p :: (ps ++ b)) = (p :: ps) ++ b := by simp
      rw [h2, List.drop_left]
  | cons c a' ih =>
    intro h
    have h0 : Py.headMatch pat (c :: (a' ++ (pat ++ b))) = false := by
      simpa using h 0 (by simp)
    show Py.removeFirst (c :: (a' ++ (pat ++ b))) pat = c :: (a' ++ b)
    rw [Py.removeFirst, if_neg (by simp [h0])]
    congr 1
    refine ih ?_
    intro i hi
    simpa using h (i + 1) (by simpa using Nat.succ_lt_succ hi)

theorem removeFirst_no_occ (pat : List Char) :
    ∀ s : List Char, (∀ i, Py.headMatch pat (s.drop i) = false) →
    Py.removeFirst s pat = s := by
  intro s
  induction s with
  | nil => intro _; rfl
  | cons c rest ih =>
    intro h
    have h0 : Py.headMatch pat (c :: rest) = false := by simpa using h 0
    rw [Py.removeFirst, if_neg (by simp [h0])]
    congr 1
    exact ih (fun i => by simpa using h (i + 1))

/-- Claim C6: in both `SNS_Quadrupole.__init__` and `SNS_Corrector.__init__`,
the field readback Parameter is registered linked to the field setting
Parameter returned by `register_setting` (the readback's `linked` index is
exactly the index at which the setting entry sits), and is published under a
`name_override` equal to the device name with the first occurrence of `PS_`
removed (`name.replace('PS_', '', 1)`; the hypotheses exhibit that first
occurrence). -/
theorem C6_readback_linked_and_renamed (fspv frpv hlpv llpv name : String)
    (lims : ℚ × ℚ) (idict : Option ℚ) (start : List VA.RegEntry)
    (a b : List Char)
    (hsplit : name.data = a ++ ("PS_".data ++ b))
    (hfirst : ∀ i < a.length, Py.headMatch "PS_".data (name.data.drop i) = false) :
    (∃ d, SNS_Quadrupole.initRegs fspv frpv name idict start
        = start ++ [VA.RegEntry.setting fspv d,
            VA.RegEntry.readback frpv start.length (some (1 / 1000000)) (some ⟨a ++ b⟩)] ∧
      (SNS_Quadrupole.initRegs fspv frpv name idict start)[start.length]?
        = some (VA.RegEntry.setting fspv d)) ∧
    (∃ d, SNS_Corrector.initRegs fspv frpv hlpv llpv lims name idict start
        = start ++ [VA.RegEntry.setting fspv d,
            VA.RegEntry.readback frpv start.length (some (1 / 1000000)) (some ⟨a ++ b⟩),
            VA.RegEntry.setting hlpv lims.2, VA.RegEntry.setting llpv lims.1] ∧
      (SNS_Corrector.initRegs fspv frpv hlpv llpv lims name idict start)[start.length]?
        = some (VA.RegEntry.setting fspv d)) := by
  have hpat : ("PS_".data : List Char) ≠ [] := by decide
  have hrm : Py.removeFirst name.data "PS_".data = a ++ b := by
    rw [hsplit]
    refine removeFirst_first_occ _ b hpat a ?_
    intro i hi
    have h2 := hfirst i hi
    rw [hsplit] at h2
    exact h2
  have hrb : Py.replaceFirstEmpty name "PS_" = ⟨a ++ b⟩ := by
    unfold Py.replaceFirstEmpty
    rw [hrm]
  have hq : ∀ (d : ℚ) (rest : List VA.RegEntry),
      (start ++ (VA.RegEntry.setting fspv d :: rest))[start.length]?
        = some (VA.RegEntry.setting fspv d) := by
    intro d rest
    rw [List.getElem?_append_right (le_refl _)]
    simp
  constructor
  · obtain ⟨d, heq⟩ : ∃ d, SNS_Quadrupole.initRegs fspv frpv name idict start
        = start ++ [VA.RegEntry.setting fspv d,
            VA.RegEntry.readback frpv start.length (some (1 / 1000000)) (some ⟨a ++ b⟩)] :=
      ⟨_, by simp [SNS_Quadrupole.initRegs, VA.registerSetting, VA.registerReadback, hrb]; rfl⟩
    exact ⟨d, heq, by rw [heq]; exact hq d _⟩
  · obtain ⟨d, heq⟩ : ∃ d, SNS_Corrector.initRegs fspv frpv hlpv llpv lims name idict start
        = start ++ [VA.RegEntry.setting fspv d,
            VA.RegEntry.readback frpv start.length (some (1 / 1000000)) (some ⟨a ++ b⟩),
            VA.RegEntry.setting hlpv lims.2, VA.RegEntry.setting llpv lims.1] :=
      ⟨_, by simp [SNS_Corrector.initRegs, VA.registerSetting, VA.registerReadback, hrb]; rfl⟩
    exact ⟨d, heq, by rw [heq]; exact hq d _⟩

/-- Witness for `C6_readback_linked_and_renamed` at the concrete device name
`PS_QH01` (first `PS_` occurrence at offset 0). -/
theorem C6_readback_linked_and_renamed_witness :
    (∃ d, SNS_Quadrupole.initRegs "B_set" "B" "PS_QH01" none []
        = [VA.RegEntry.setting "B_set" d,
           VA.RegEntry.readback "B" 0 (some (1 / 1000000)) (some "QH01")] ∧
      (SNS_Quadrupole.initRegs "B_set" "B" "PS_QH01" none [])[0]?
        = some (VA.RegEntry.setting "B_set" d)) ∧
    (∃ d, SNS_Corrector.initRegs "B_set" "B" "B_hi" "B_lo" (-1, 1) "PS_QH01" none []
        = [VA.RegEntry.setting "B_set" d,
           VA.RegEntry.readback "B" 0 (some (1 / 1000000)) (some "QH01"),
           VA.RegEntry.setting "B_hi" (-1, (1 : ℚ)).2,
           VA.RegEntry.setting "B_lo" ((-1 : ℚ), 1).1] ∧
      (SNS_Corrector.initRegs "B_set" "B" "B_hi" "B_lo" (-1, 1) "PS_QH01" none [])[0]?
        = some (VA.RegEntry.setting "B_set" d)) := by
  have h := C6_readback_linked_and_renamed "B_set" "B" "B_hi" "B_lo" "PS_QH01" (-1, 1) none []
    ("".data) ("QH01".data) (by decide) (by intro i hi; simp at hi)
  simpa using h

/-- Claim C7: the pure dummy diagnostic `SNS_Dummy_ICS` produces no Model
effect: `get_settings` returns the empty dictionary in every state, and
`update_measurements` stores `1` into the beam-on PV and `0` into the event PV
without using the Model output passed to it (any two arguments give the same
result). -/
theorem C7_ics_no_model_effect :
    ∀ (nm : List (String × List (String × ℚ))) (s : SNS_Dummy_ICS.State),
      SNS_Dummy_ICS.get_settings s = [] ∧
      (SNS_Dummy_ICS.update_measurements nm s).beam_on = 1 ∧
      (SNS_Dummy_ICS.update_measurements nm s).event = 0 ∧
      ∀ nm2, SNS_Dummy_ICS.update_measurements nm s = SNS_Dummy_ICS.update_measurements nm2 s :=
  fun nm s => ⟨rfl, rfl, rfl, fun nm2 => rfl⟩

open Startup in
theorem collect_fst : ∀ (quads : List (String × QuadConf))
    (l0 : List (String × QuadRecord)) (o : Option ℚ),
    (quads.foldl addQuad (l0, o)).1 = l0 ++ quads.map mkRecord := by
  intro quads
  induction quads with
  | nil => intro l0 o; simp
  | cons nq rest ih =>
    intro l0 o
    rw [List.foldl_cons]
    show (rest.foldl addQuad (l0 ++ [mkRecord nq], addMin o |nq.2.dBdr|)).1 = _
    rw [ih]
    simp [mkRecord]

open Startup in
theorem collect_snd : ∀ (quads : List (String × QuadConf))
    (l0 : List (String × QuadRecord)) (o : Option ℚ),
    (quads.foldl addQuad (l0, o)).2 = (quads.map (fun nq => |nq.2.dBdr|)).foldl addMin o := by
  intro quads
  induction quads with
  | nil => intro l0 o; rfl
  | cons nq rest ih =>
    intro l0 o
    rw [List.foldl_cons, List.map_cons, List.foldl_cons]
    exact ih _ _

open Startup in
theorem addMin_fold_some : ∀ (l : List ℚ) (x : ℚ),
    ∃ m, l.foldl addMin (some x) = some m ∧ (m = x ∨ m ∈ l) ∧ m ≤ x ∧ ∀ f ∈ l, m ≤ f := by
  intro l
  induction l with
  | nil => intro x; exact ⟨x, rfl, Or.inl rfl, le_refl x, by simp⟩
  | cons f rest ih =>
    intro x
    rw [List.foldl_cons]
    by_cases h : x > f
    · rw [show addMin (some x) f = some f by simp [addMin, h]]
      obtain ⟨m, heq, hmem, hle, hbd⟩ := ih f
      refine ⟨m, heq, ?_, le_trans hle (le_of_lt h), ?_⟩
      · rcases hmem with h2 | h2
        · exact Or.inr (h2 ▸ List.mem_cons_self f rest)
        · exact Or.inr (List.mem_cons_of_mem f h2)
      · intro g hg
        rcases List.mem_cons.mp hg with h2 | h2
        · exact h2 ▸ hle
        · exact hbd g h2
    · rw [show addMin (some x) f = some x by simp [addMin, h]]
      obtain ⟨m, heq, hmem, hle, hbd⟩ := ih x
      refine ⟨m, heq, ?_, hle, ?_⟩
      · rcases hmem with h2 | h2
        · exact Or.inl h2
        · exact Or.inr (List.mem_cons_of_mem f h2)
      · intro g hg
        rcases List.mem_cons.mp hg with h2 | h2
        · exact h2 ▸ le_trans hle (not_lt.mp h)
        · exact hbd g h2

open Startup in
theorem addMin_fold_nonempty (l : List ℚ) (h : l ≠ []) :
    ∃ m, l.foldl addMin none = some m ∧ m ∈ l ∧ ∀ f ∈ l, m ≤ f := by
  cases l with
  | nil => exact absurd rfl h
  | cons f rest =>
    rw [List.foldl_cons, show addMin none f = some f from rfl]
    obtain ⟨m, heq, hmem, hle, hbd⟩ := addMin_fold_some rest f
    refine ⟨m, heq, ?_, ?_⟩
    · rcases hmem with h2 | h2
      · exact h2 ▸ List.mem_cons_self f rest
      · exact List.mem_cons_of_mem f h2
    · intro g hg
      rcases List.mem_cons.mp hg with h2 | h2
      · exact h2 ▸ hle
      · exact hbd g h2

/-- Claim C8: for a quadrupole power supply with at least one connected
quadrupole, the power-supply field chosen by `main` is the minimum of the
absolute initial field strengths `abs(dB/dr)` of all connected quadrupoles, and
every `Quadrupole_Power_Shunt` constructed for those quadrupoles gets a
nonnegative shunt field `field - ps_field`. -/
theorem C8_ps_field_is_min (ps_name : String)
    (quads : List (String × Startup.QuadConf)) (h : quads ≠ []) :
    ∃ ps_field,
      (Startup.collectQuads quads).2 = some ps_field ∧
      ps_field ∈ quads.map (fun nq => |nq.2.dBdr|) ∧
      (∀ f ∈ quads.map (fun nq => |nq.2.dBdr|), ps_field ≤ f) ∧
      (∃ devs, Startup.buildPSDevices ps_name quads
          = Startup.StartupDevice.powerSupply ps_name ps_field :: devs) ∧
      (∀ sname sfield,
        Startup.StartupDevice.powerShunt sname sfield ∈ Startup.buildPSDevices ps_name quads →
        0 ≤ sfield) := by
  have hne : quads.map (fun nq => |nq.2.dBdr|) ≠ [] := by
    intro h2
    exact h (List.map_eq_nil_iff.mp h2)
  obtain ⟨m, heq, hmem, hbd⟩ := addMin_fold_nonempty _ hne
  have hsnd : (Startup.collectQuads quads).2 = some m := by
    rw [Startup.collectQuads, collect_snd]
    exact heq
  obtain ⟨nq0, rest, rfl⟩ : ∃ nq0 rest, quads = nq0 :: rest := by
    cases quads with
    | nil => exact absurd rfl h
    | cons nq0 rest => exact ⟨nq0, rest, rfl⟩
  have hcq : Startup.collectQuads (nq0 :: rest)
      = (Startup.mkRecord nq0 :: rest.map Startup.mkRecord, some m) := by
    have h1 : (Startup.collectQuads (nq0 :: rest)).1
        = Startup.mkRecord nq0 :: rest.map Startup.mkRecord := by
      rw [Startup.collectQuads, collect_fst]
      simp
    exact Prod.ext_iff.mpr ⟨h1, hsnd⟩
  have hbuild : Startup.buildPSDevices ps_name (nq0 :: rest)
      = Startup.StartupDevice.powerSupply ps_name m ::
          ((Startup.mkRecord nq0 :: rest.map Startup.mkRecord).map (fun nq =>
            match nq.2.shunt with
            | none => [Startup.StartupDevice.quadrupole nq.1 nq.2.or_name nq.2.polarity false]
            | some shunt_name =>
                [Startup.StartupDevice.powerShunt shunt_name (nq.2.field - m),
                 Startup.StartupDevice.quadrupole nq.1 nq.2.or_name nq.2.polarity true])).flatten := by
    rw [Startup.buildPSDevices, hcq]
  refine ⟨m, hsnd, hmem, hbd, ⟨_, hbuild⟩, ?_⟩
  intro sname sfield hsmem
  rw [hbuild] at hsmem
  rcases List.mem_cons.mp hsmem with h2 | h2
  · exact absurd h2 (by simp)
  · obtain ⟨block, hblock, hin⟩ := List.mem_flatten.mp h2
    obtain ⟨rec, hrec, hfn⟩ := List.mem_map.mp hblock
    have hrec2 : rec ∈ (nq0 :: rest).map Startup.mkRecord := by
      simpa using hrec
    obtain ⟨nq, hnq, hmk⟩ := List.mem_map.mp hrec2
    rcases hshunt : rec.2.shunt with _ | sname2
    · rw [hshunt] at hfn
      rw [← hfn] at hin
      simp at hin
    · rw [hshunt] at hfn
      rw [← hfn] at hin
      simp at hin
      have hfield : sfield = rec.2.field - m := hin.2
      have hrf : rec.2.field = |nq.2.dBdr| := by
        rw [← hmk]
        rfl
      rw [hfield, hrf]
      have hle := hbd |nq.2.dBdr| (List.mem_map_of_mem _ hnq)
      linarith

/-- Witness for `C8_ps_field_is_min` on a concrete two-quad power supply. -/
theorem C8_ps_field_is_min_witness :
    ∃ ps_field,
      (Startup.collectQuads
        [("Q1", ⟨"MEBT:QH01", some "Sh01", -2, 1⟩), ("Q2", ⟨"MEBT:QV02", none, 1, -1⟩)]).2
        = some ps_field ∧
      ps_field ∈ [("Q1", (⟨"MEBT:QH01", some "Sh01", -2, 1⟩ : Startup.QuadConf)),
          ("Q2", ⟨"MEBT:QV02", none, 1, -1⟩)].map (fun nq => |nq.2.dBdr|) ∧
      (∀ f ∈ [("Q1", (⟨"MEBT:QH01", some "Sh01", -2, 1⟩ : Startup.QuadConf)),
          ("Q2", ⟨"MEBT:QV02", none, 1, -1⟩)].map (fun nq => |nq.2.dBdr|), ps_field ≤ f) ∧
      (∃ devs, Startup.buildPSDevices "PS1"
          [("Q1", ⟨"MEBT:QH01", some "Sh01", -2, 1⟩), ("Q2", ⟨"MEBT:QV02", none, 1, -1⟩)]
          = Startup.StartupDevice.powerSupply "PS1" ps_field :: devs) ∧
      (∀ sname sfield,
        Startup.StartupDevice.powerShunt sname sfield ∈ Startup.buildPSDevices "PS1"
          [("Q1", ⟨"MEBT:QH01", some "Sh01", -2, 1⟩), ("Q2", ⟨"MEBT:QV02", none, 1, -1⟩)] →
        0 ≤ sfield) :=
  C8_ps_field_is_min "PS1"
    [("Q1", ⟨"MEBT:QH01", some "Sh01", -2, 1⟩), ("Q2", ⟨"MEBT:QV02", none, 1, -1⟩)]
    (List.cons_ne_nil _ _)

/-- Claim C9: `BTF_FCclass.trackActions` and `BTF_BCMclass.trackActions` are
equivalent in their effect on the `'current'` parameter, and that common effect
is: unchanged when `"bunch"` is absent; `part_num / initial_particle_number *
beam_current` when the bunch is non-empty (given the two other keys are present
and the initial particle number is nonzero, otherwise both raise identically);
`0.0` when the bunch is empty. -/
theorem C9_fc_bcm_equivalent :
    (∀ (p : BTF.ParamsDict) (cur : ℚ),
      BTF.BTF_FCclass.trackActions p cur = BTF.BTF_BCMclass.trackActions p cur) ∧
    (∀ (p : BTF.ParamsDict) (cur : ℚ), p.bunchSize = none →
      BTF.BTF_FCclass.trackActions p cur = Except.ok cur ∧
      BTF.BTF_BCMclass.trackActions p cur = Except.ok cur) ∧
    (∀ (p : BTF.ParamsDict) (cur : ℚ) (n : ℕ) (bc ipn : ℚ),
      p.bunchSize = some n → 0 < n → p.beam_current = some bc →
      p.initial_particle_number = some ipn → ipn ≠ 0 →
      BTF.BTF_FCclass.trackActions p cur = Except.ok ((n : ℚ) / ipn * bc) ∧
      BTF.BTF_BCMclass.trackActions p cur = Except.ok ((n : ℚ) / ipn * bc)) ∧
    (∀ (p : BTF.ParamsDict) (cur : ℚ), p.bunchSize = some 0 →
      BTF.BTF_FCclass.trackActions p cur = Except.ok 0 ∧
      BTF.BTF_BCMclass.trackActions p cur = Except.ok 0) := by
  refine ⟨fun p cur => rfl, fun p cur h => ?_, fun p cur n bc ipn h1 h2 h3 h4 h5 => ?_,
    fun p cur h => ?_⟩
  · constructor <;> simp [BTF.BTF_FCclass.trackActions, BTF.BTF_BCMclass.trackActions, h]
  · constructor <;>
    · simp only [BTF.BTF_FCclass.trackActions, BTF.BTF_BCMclass.trackActions, h1, h3, h4]
      rw [if_pos h2, if_neg h5]
  · constructor <;> simp [BTF.BTF_FCclass.trackActions, BTF.BTF_BCMclass.trackActions, h]

/-- Witness for `C9_fc_bcm_equivalent` at concrete parameter dictionaries. -/
theorem C9_fc_bcm_equivalent_witness :
    BTF.BTF_FCclass.trackActions ⟨some 5, some 2, some 10⟩ 3
      = BTF.BTF_BCMclass.trackActions ⟨some 5, some 2, some 10⟩ 3 ∧
    (BTF.BTF_FCclass.trackActions ⟨none, none, none⟩ 3 = Except.ok 3 ∧
     BTF.BTF_BCMclass.trackActions ⟨none, none, none⟩ 3 = Except.ok 3) ∧
    (BTF.BTF_FCclass.trackActions ⟨some 5, some 2, some 10⟩ 3
        = Except.ok (((5 : ℕ) : ℚ) / 10 * 2) ∧
     BTF.BTF_BCMclass.trackActions ⟨some 5, some 2, some 10⟩ 3
        = Except.ok (((5 : ℕ) : ℚ) / 10 * 2)) ∧
    (BTF.BTF_FCclass.trackActions ⟨some 0, some 2, some 10⟩ 3 = Except.ok 0 ∧
     BTF.BTF_BCMclass.trackActions ⟨some 0, some 2, some 10⟩ 3 = Except.ok 0) :=
  ⟨C9_fc_bcm_equivalent.1 ⟨some 5, some 2, some 10⟩ 3,
   C9_fc_bcm_equivalent.2.1 ⟨none, none, none⟩ 3 rfl,
   C9_fc_bcm_equivalent.2.2.1 ⟨some 5, some 2, some 10⟩ 3 5 2 10 rfl (by norm_num) rfl rfl
     (by norm_num),
   C9_fc_bcm_equivalent.2.2.2 ⟨some 0, some 2, some 10⟩ 3 rfl⟩

/-- Claim C10: constructing a `BTF_Slitclass` fails for every choice of
arguments and never yields a value: the `parameters` dict literal is ill-formed
(missing separator between the `'interaction_start'` entry and the
`'edge_to_slit'` key), and the identifiers it references that do not resolve in
the initializer's scope are exactly `screen_polarity`, `interaction` and
`edge_to_slit`. -/
theorem C10_slit_constructor_always_fails :
    (∀ (cn : String) (ax : BTF.PyVal),
        BTF.BTF_Slitclass.init cn ax = Except.error PyErr.syntaxError) ∧
    BTF.dictLiteralWF BTF.slitParamsTokens = false ∧
    (BTF.identTokens BTF.slitParamsTokens).filter (fun n => ! BTF.slitResolvable n)
      = ["screen_polarity", "interaction", "edge_to_slit"] :=
  ⟨fun cn ax => rfl, rfl, by decide⟩
